import Mathlib

set_option linter.unusedVariables false

/-!
# Verification of the Error Handling & Recovery Engine

Shallow embedding of `src/agents/error_handling_system.py` (class `ErrorHandler`
and the module-level reporting helpers) and proofs of the frozen claims about it.

Modelling conventions:
* Python dicts become association lists `List (String × α)`; `aset` updates the
  entry in place when the key is present and appends otherwise, matching the
  insertion-order semantics of Python dicts; `adelete` models `del d[k]`.
* `datetime` timestamps become `Int` seconds; every operation that reads the
  clock takes an explicit `now : Int` argument in place of `datetime.now()`.
* Python code that can raise becomes `Except String α`; the error string names
  the Python exception.  A registered recovery handler is a function
  `ErrorContext → Except String RecoveryResult` (it may raise).
* `float` probabilities become `Rat`; they are informational only.
* Logging calls (`self.logger...`) and the `threading.Lock` are omitted: the
  lock makes each `handle_error` call atomic, which is exactly the sequential
  semantics modelled here; logging has no effect on any observable state.
-/

namespace ErrorHandlingSystem

/-- `class ErrorSeverity(Enum)` from the source. -/
inductive ErrorSeverity where
  | LOW
  | MEDIUM
  | HIGH
  | CRITICAL
deriving DecidableEq, Repr

/-- `.value` of the `ErrorSeverity` enum members. -/
def ErrorSeverity.value : ErrorSeverity → String
  | .LOW => "low"
  | .MEDIUM => "medium"
  | .HIGH => "high"
  | .CRITICAL => "critical"

/-- `class RecoveryStrategy(Enum)` from the source. -/
inductive RecoveryStrategy where
  | RETRY
  | FALLBACK
  | ESCALATE
  | SKIP
  | RESTART
deriving DecidableEq, Repr

/-- `.value` of the `RecoveryStrategy` enum members. -/
def RecoveryStrategy.value : RecoveryStrategy → String
  | .RETRY => "retry"
  | .FALLBACK => "fallback"
  | .ESCALATE => "escalate"
  | .SKIP => "skip"
  | .RESTART => "restart"

/-- A value stored in a `parameters` dict of a `RecoveryAction`
(the source stores both ints and strings there). -/
inductive ParamValue where
  | int (n : Int)
  | str (s : String)
deriving DecidableEq, Repr

/-- `@dataclass ErrorContext` from the source.  `context` values are modelled
as strings (the claims never inspect them). -/
structure ErrorContext where
  error_type : String
  error_message : String
  stack_trace : String
  agent_role : String
  task_id : String
  timestamp : Int
  severity : ErrorSeverity
  context : List (String × String)
deriving DecidableEq, Repr

/-- `@dataclass RecoveryAction` from the source. -/
structure RecoveryAction where
  strategy : RecoveryStrategy
  description : String
  parameters : List (String × ParamValue)
  success_probability : Rat
  estimated_duration : Int
deriving DecidableEq, Repr

/-- The dict returned by `attempt_recovery` / strategy handlers:
`{"success": ..., "strategy": ..., "message": ..., "recovery_action": ...}`. -/
structure RecoveryResult where
  success : Bool
  strategy : String
  message : String
  recovery_action : Option RecoveryAction
deriving DecidableEq, Repr

/-- A registered strategy handler; `Except.error msg` models the handler
raising an exception whose `str(...)` is `msg`. -/
abbrev Handler := ErrorContext → Except String RecoveryResult

/-- One entry of `self.recovery_strategies`
(`{"strategy": ..., "handler": ..., "success_probability": ...}`). -/
structure StrategyInfo where
  strategy : RecoveryStrategy
  handler : Handler
  success_probability : Rat

/-- One entry of `self.circuit_breakers`
(`{"failure_count": ..., "is_open": ..., "opened_at": ...}`).
`opened_at = none` models Python `None`. -/
structure BreakerInfo where
  failure_count : Nat
  is_open : Bool
  opened_at : Option Int
deriving DecidableEq, Repr

/-! ## Association lists standing in for Python dicts -/

/-- `d.get(key)` / `d[key]` lookup on an insertion-ordered dict. -/
def alookup {α : Type} : List (String × α) → String → Option α
  | [], _ => none
  | (k, v) :: rest, key => if k = key then some v else alookup rest key

/-- `d[key] = v`: update in place when present, append when absent
(Python dicts preserve insertion order). -/
def aset {α : Type} : List (String × α) → String → α → List (String × α)
  | [], key, v => [(key, v)]
  | (k, w) :: rest, key, v =>
      if k = key then (k, v) :: rest else (k, w) :: aset rest key v

/-- `del d[key]` (dict keys are unique, so deleting the first match suffices). -/
def adelete {α : Type} : List (String × α) → String → List (String × α)
  | [], _ => []
  | (k, w) :: rest, key => if k = key then rest else (k, w) :: adelete rest key

/-! ## Engine state and constants -/

/-- The mutable attributes of `ErrorHandler.__init__`. -/
structure ErrorHandlerState where
  error_history : List ErrorContext
  recovery_strategies : List (String × StrategyInfo)
  circuit_breakers : List (String × BreakerInfo)
  retry_counts : List (String × Nat)

/-- `self.max_retries = 3`. -/
def max_retries : Nat := 3

/-- `self.circuit_breaker_threshold = 5`. -/
def circuit_breaker_threshold : Nat := 5

/-- `self.circuit_breaker_timeout = 300`. -/
def circuit_breaker_timeout : Int := 300

/-- A freshly constructed `ErrorHandler()`. -/
def initState : ErrorHandlerState :=
  { error_history := []
    recovery_strategies := []
    circuit_breakers := []
    retry_counts := [] }

/-- The f-string key `f"{agent_role}_{task_id}_{error_type}"` used for
`self.retry_counts`. -/
def retry_key (agent_role task_id error_type : String) : String :=
  agent_role ++ "_" ++ task_id ++ "_" ++ error_type

/-- The f-string key `f"{agent_role}_{error_type}"` used for
`self.circuit_breakers`. -/
def breaker_key (agent_role error_type : String) : String :=
  agent_role ++ "_" ++ error_type

/-! ## Translated operations -/

/-- `ErrorHandler.determine_error_severity`.  `List.contains` mirrors the
Python `in` test on the three literal lists. -/
def determine_error_severity (error_type error_message : String) : ErrorSeverity :=
  let critical_errors := ["SystemExit", "KeyboardInterrupt", "MemoryError"]
  let high_errors := ["ConnectionError", "TimeoutError", "FileNotFoundError"]
  let medium_errors := ["ValueError", "TypeError", "KeyError"]
  if critical_errors.contains error_type then ErrorSeverity.CRITICAL
  else if high_errors.contains error_type then ErrorSeverity.HIGH
  else if medium_errors.contains error_type then ErrorSeverity.MEDIUM
  else ErrorSeverity.LOW

/-- `ErrorHandler.create_error_context`.  The Python `error : Exception`
argument is represented by the pair (`type(error).__name__`, `str(error)`);
`traceback.format_exc()` is opaque diagnostic text, modelled as `""`, and the
optional `context` dict as `[]` (no claim inspects either). -/
def create_error_context (error_type error_message agent_role task_id : String)
    (now : Int) : ErrorContext :=
  { error_type := error_type
    error_message := error_message
    stack_trace := ""
    agent_role := agent_role
    task_id := task_id
    timestamp := now
    severity := determine_error_severity error_type error_message
    context := [] }

/-- `ErrorHandler.default_retry_handler`. -/
def default_retry_handler : Handler := fun _ =>
  Except.ok
    { success := true
      strategy := "retry"
      message := "Retrying operation"
      recovery_action := some
        { strategy := RecoveryStrategy.RETRY
          description := "Retry the failed operation"
          parameters := [("delay", ParamValue.int 5)]
          success_probability := 0.6
          estimated_duration := 5 } }

/-- `ErrorHandler.register_recovery_strategy`. -/
def register_recovery_strategy (s : ErrorHandlerState) (error_type : String)
    (strategy : RecoveryStrategy) (handler : Handler)
    (success_probability : Rat) : ErrorHandlerState :=
  { s with recovery_strategies := (aset s.recovery_strategies error_type
        { strategy := strategy
          handler := handler
          success_probability := success_probability }) }

/-- `ErrorHandler.is_circuit_breaker_open`.  The method reads and writes only
`self.circuit_breakers`, so it is translated on that table.  When the stored
`opened_at` is `None`, the Python expression
`datetime.now() - breaker_info["opened_at"]` raises `TypeError`, which the
caller does not catch: this is modelled by `Except.error`. -/
def is_circuit_breaker_open (breakers : List (String × BreakerInfo))
    (agent_role error_type : String) (now : Int) :
    Except String (Bool × List (String × BreakerInfo)) :=
  let bkey := breaker_key agent_role error_type
  match alookup breakers bkey with
  | none => Except.ok (false, breakers)
  | some breaker_info =>
    match breaker_info.opened_at with
    | none =>
        Except.error
          "TypeError: unsupported operand type(s) for -: 'datetime.datetime' and 'NoneType'"
    | some opened_at =>
        if now - opened_at > circuit_breaker_timeout then
          Except.ok (false, adelete breakers bkey)
        else
          Except.ok (breaker_info.is_open, breakers)

/-- `ErrorHandler.update_circuit_breaker` (on `self.circuit_breakers`).
The Python code first inserts a fresh `{"failure_count": 0, "is_open": False,
"opened_at": None}` entry when the key is absent and then mutates that entry;
reading the entry with a default and writing the final value back with `aset`
has exactly that net effect (position preserved, appended when new). -/
def update_circuit_breaker (breakers : List (String × BreakerInfo))
    (agent_role error_type : String) (success : Bool) (now : Int) :
    List (String × BreakerInfo) :=
  let bkey := breaker_key agent_role error_type
  let breaker_info := (alookup breakers bkey).getD
    { failure_count := 0, is_open := false, opened_at := none }
  if success then
    aset breakers bkey { breaker_info with failure_count := 0, is_open := false }
  else
    let fc := breaker_info.failure_count + 1
    if fc ≥ circuit_breaker_threshold then
      aset breakers bkey
        { breaker_info with failure_count := fc, is_open := true, opened_at := some now }
    else
      aset breakers bkey { breaker_info with failure_count := fc }

/-- `ErrorHandler.handle_circuit_breaker_open`. -/
def handle_circuit_breaker_open (agent_role : String) (ec : ErrorContext) :
    RecoveryResult :=
  { success := false
    strategy := "circuit_breaker_open"
    message := "Circuit breaker is open for " ++ agent_role ++ " - " ++ ec.error_type
    recovery_action := some
      { strategy := RecoveryStrategy.ESCALATE
        description := "Escalate to human operator"
        parameters := [("escalation_level", ParamValue.str "high")]
        success_probability := 0.9
        estimated_duration := 300 } }

/-- `ErrorHandler.attempt_recovery`.  Reads `self.recovery_strategies` and
reads/writes `self.retry_counts`, so it is translated on those tables and
returns the result dict together with the new retry table.  The
`try/except` around the handler call is modelled by matching on the
handler's `Except` result; the method itself never raises. -/
def attempt_recovery (strategies : List (String × StrategyInfo))
    (retry_counts : List (String × Nat)) (ec : ErrorContext) :
    RecoveryResult × List (String × Nat) :=
  let strategy_info : StrategyInfo :=
    match alookup strategies ec.error_type with
    | some si => si
    | none =>
        { strategy := RecoveryStrategy.RETRY
          handler := default_retry_handler
          success_probability := 0.5 }
  let strategy := strategy_info.strategy
  let handler := strategy_info.handler
  let rkey := retry_key ec.agent_role ec.task_id ec.error_type
  let retry_count := (alookup retry_counts rkey).getD 0
  if retry_count ≥ max_retries then
    ({ success := false
       strategy := "max_retries_exceeded"
       message := "Maximum retries (3) exceeded"
       recovery_action := none }, retry_counts)
  else
    match handler ec with
    | Except.ok recovery_result =>
        if recovery_result.success then
          (recovery_result, aset retry_counts rkey 0)
        else
          (recovery_result, aset retry_counts rkey (retry_count + 1))
    | Except.error e =>
        ({ success := false
           strategy := strategy.value
           message := "Recovery failed: " ++ e
           recovery_action := none }, retry_counts)

/-- `ErrorHandler.handle_error`.  Appends to history, consults the breaker,
then either short-circuits or attempts recovery and records the outcome on
the breaker.  A `TypeError` escaping `is_circuit_breaker_open` propagates to
the caller, hence the `Except` result. -/
def handle_error (s : ErrorHandlerState)
    (error_type error_message agent_role task_id : String) (now : Int) :
    Except String (RecoveryResult × ErrorHandlerState) :=
  let ec := create_error_context error_type error_message agent_role task_id now
  let s1 : ErrorHandlerState := { s with error_history := s.error_history ++ [ec] }
  match is_circuit_breaker_open s1.circuit_breakers agent_role ec.error_type now with
  | Except.error e => Except.error e
  | Except.ok (true, cbs2) =>
      Except.ok (handle_circuit_breaker_open agent_role ec,
        { s1 with circuit_breakers := cbs2 })
  | Except.ok (false, cbs2) =>
      let s2 : ErrorHandlerState := { s1 with circuit_breakers := cbs2 }
      let pr := attempt_recovery s2.recovery_strategies s2.retry_counts ec
      let s3 : ErrorHandlerState := { s2 with retry_counts := pr.2 }
      let cbs3 :=
        update_circuit_breaker s3.circuit_breakers agent_role ec.error_type pr.1.success now
      Except.ok (pr.1, { s3 with circuit_breakers := cbs3 })

/-! ## Statistics and reporting -/

/-- The full statistics dict built by `get_error_statistics` when the
history is nonempty. -/
structure FullStats where
  total_errors : Nat
  recent_errors : Nat
  severity_breakdown : List (String × Nat)
  agent_breakdown : List (String × Nat)
  error_type_breakdown : List (String × Nat)
  circuit_breakers_open : Nat
  active_retry_counts : List (String × Nat)
deriving DecidableEq, Repr

/-- `get_error_statistics` returns one of two differently-shaped dicts:
`{"total_errors": 0}` on empty history, or the seven-field dict. -/
inductive StatsResult where
  | emptyStats (total_errors : Nat)
  | fullStats (stats : FullStats)
deriving DecidableEq, Repr

/-- Whether a statistics result carries all seven fields (the full dict shape,
as opposed to the bare `{"total_errors": 0}` dict). -/
def stats_has_all_fields : StatsResult → Bool
  | StatsResult.emptyStats _ => false
  | StatsResult.fullStats _ => true

/-- `counts[key] = counts.get(key, 0) + 1`. -/
def ainc (counts : List (String × Nat)) (key : String) : List (String × Nat) :=
  aset counts key ((alookup counts key).getD 0 + 1)

/-- `ErrorHandler.get_error_statistics`.  The three breakdown dicts are built
by folding over the history exactly as the three Python loops do; the
recent-error filter compares the stored timestamp against `now - 3600`
(`datetime.now() - timedelta(hours=1)`). -/
def get_error_statistics (s : ErrorHandlerState) (now : Int) : StatsResult :=
  let total_errors := s.error_history.length
  if total_errors = 0 then
    StatsResult.emptyStats 0
  else
    let severity_counts :=
      s.error_history.foldl (fun acc e => ainc acc e.severity.value) []
    let agent_counts :=
      s.error_history.foldl (fun acc e => ainc acc e.agent_role) []
    let error_type_counts :=
      s.error_history.foldl (fun acc e => ainc acc e.error_type) []
    let recent_errors := s.error_history.filter (fun e => e.timestamp > now - 3600)
    StatsResult.fullStats
      { total_errors := total_errors
        recent_errors := recent_errors.length
        severity_breakdown := severity_counts
        agent_breakdown := agent_counts
        error_type_breakdown := error_type_counts
        circuit_breakers_open := (s.circuit_breakers.filter (fun p => p.2.is_open)).length
        active_retry_counts := s.retry_counts }

/-- `generate_error_recommendations`.  On the bare `{"total_errors": 0}` dict
the Python function evaluates `stats["recent_errors"]` on a dict without that
key and raises `KeyError` (the first check, on `total_errors`, cannot raise);
on the full dict it appends one recommendation per satisfied threshold rule,
in source order. -/
def generate_error_recommendations : StatsResult → Except String (List String)
  | StatsResult.emptyStats _ => Except.error "KeyError: 'recent_errors'"
  | StatsResult.fullStats st =>
      Except.ok
        ((if st.total_errors > 100 then
            ["High error count detected - consider system stability review"]
          else []) ++
         (if st.recent_errors > 10 then
            ["Recent error spike detected - investigate recent changes"]
          else []) ++
         (if st.circuit_breakers_open > 0 then
            [toString st.circuit_breakers_open ++
              " circuit breakers are open - manual intervention may be required"]
          else []) ++
         (st.error_type_breakdown.filter (fun p => p.2 > 20)).map
           (fun p => "High frequency of " ++ p.1 ++ " errors - consider preventive measures"))

/-- One entry of the `circuit_breaker_status` section of the report. -/
structure BreakerStatus where
  is_open : Bool
  failure_count : Nat
  opened_at : Option Int
deriving DecidableEq, Repr

/-- The dict returned by `create_error_report` (the constant `report_type`
and the `generated_at` timestamp are carried along verbatim). -/
structure ErrorReport where
  report_type : String
  generated_at : Int
  summary : StatsResult
  recommendations : List String
  circuit_breaker_status : List (String × BreakerStatus)
deriving DecidableEq, Repr

/-- `create_error_report`.  A `KeyError` escaping
`generate_error_recommendations` propagates. -/
def create_error_report (s : ErrorHandlerState) (now : Int) :
    Except String ErrorReport :=
  let stats := get_error_statistics s now
  match generate_error_recommendations stats with
  | Except.error e => Except.error e
  | Except.ok recs =>
      Except.ok
        { report_type := "error_analysis"
          generated_at := now
          summary := stats
          recommendations := recs
          circuit_breaker_status :=
            s.circuit_breakers.map (fun p =>
              (p.1, { is_open := p.2.is_open
                      failure_count := p.2.failure_count
                      opened_at := p.2.opened_at })) }

/-- `attempts_so_far` of spec §4.3: the retry counter for a triple,
defaulting to 0 for unseen triples. -/
def attempts_so_far (s : ErrorHandlerState)
    (agent_role task_id error_type : String) : Nat :=
  (alookup s.retry_counts (retry_key agent_role task_id error_type)).getD 0

/-- Five consecutive failed recovery outcomes recorded on the breaker table
for the pair (`a`, `k`) at times `t1 ≤ ... ≤ t5`
(`update_circuit_breaker(..., success=False)` five times). -/
def record_five_failures (cbs : List (String × BreakerInfo)) (a k : String)
    (t1 t2 t3 t4 t5 : Int) : List (String × BreakerInfo) :=
  update_circuit_breaker
    (update_circuit_breaker
      (update_circuit_breaker
        (update_circuit_breaker
          (update_circuit_breaker cbs a k false t1) a k false t2) a k false t3)
      a k false t4) a k false t5

/-- A registered handler that always raises (`raise Exception("boom")`). -/
def boom_handler : Handler := fun _ => Except.error "boom"

/-- An engine with `boom_handler` registered for fault kind "BoomError"
(via `register_recovery_strategy` with the default probability 0.8). -/
def boom_state : ErrorHandlerState :=
  register_recovery_strategy initState "BoomError" RecoveryStrategy.RETRY boom_handler 0.8

/-- The decision produced by the default retry path on a fresh engine for
fault kind "E" reported by actor "a" on task "t" at time 0. -/
def c6_result : RecoveryResult :=
  { success := true
    strategy := "retry"
    message := "Retrying operation"
    recovery_action := some
      { strategy := RecoveryStrategy.RETRY
        description := "Retry the failed operation"
        parameters := [("delay", ParamValue.int 5)]
        success_probability := 0.6
        estimated_duration := 5 } }

/-- The engine state after that first `handle_error` call on a fresh engine. -/
def c6_post : ErrorHandlerState :=
  { error_history :=
      [{ error_type := "E"
         error_message := "m"
         stack_trace := ""
         agent_role := "a"
         task_id := "t"
         timestamp := 0
         severity := ErrorSeverity.LOW
         context := [] }]
    recovery_strategies := []
    circuit_breakers := [("a_E", { failure_count := 0, is_open := false, opened_at := none })]
    retry_counts := [("a_t_E", 0)] }

/-- An engine whose history holds exactly one record (fault kind "E" from
actor "a" on task "t" at time 0). -/
def one_error_state : ErrorHandlerState :=
  { initState with error_history :=
      [{ error_type := "E"
         error_message := "m"
         stack_trace := ""
         agent_role := "a"
         task_id := "t"
         timestamp := 0
         severity := ErrorSeverity.LOW
         context := [] }] }

/-- A statistics dict in which every recommendation threshold fires. -/
def trigger_stats : FullStats :=
  { total_errors := 101
    recent_errors := 11
    severity_breakdown := [("low", 101)]
    agent_breakdown := [("a", 101)]
    error_type_breakdown := [("E", 21)]
    circuit_breakers_open := 1
    active_retry_counts := [] }

/-- The report produced by `create_error_report` on `one_error_state` at
time 0. -/
def one_error_report : ErrorReport :=
  { report_type := "error_analysis"
    generated_at := 0
    summary := StatsResult.fullStats
      { total_errors := 1
        recent_errors := 1
        severity_breakdown := [("low", 1)]
        agent_breakdown := [("a", 1)]
        error_type_breakdown := [("E", 1)]
        circuit_breakers_open := 0
        active_retry_counts := [] }
    recommendations := []
    circuit_breaker_status := [] }

/-- Engine states reachable by any sequence of operations: starting from a
fresh `ErrorHandler()`, registering strategies, and calling `handle_error`.
When a call raises (the `TypeError` path), the Python engine keeps the
history entry appended before the raise and nothing else changes, which the
`handled_err` constructor reflects. -/
inductive Reachable : ErrorHandlerState → Prop where
  | init : Reachable initState
  | register (s : ErrorHandlerState) (error_type : String) (strategy : RecoveryStrategy)
      (handler : Handler) (p : Rat) (hs : Reachable s) :
      Reachable (register_recovery_strategy s error_type strategy handler p)
  | handled (s : ErrorHandlerState) (et msg a task : String) (now : Int)
      (r : RecoveryResult) (s2 : ErrorHandlerState) (hs : Reachable s)
      (h : handle_error s et msg a task now = Except.ok (r, s2)) : Reachable s2
  | handled_err (s : ErrorHandlerState) (et msg a task : String) (now : Int) (e : String)
      (hs : Reachable s) (h : handle_error s et msg a task now = Except.error e) :
      Reachable
        { s with error_history := s.error_history ++ [create_error_context et msg a task now] }

/-! ## Association-list lemmas -/

theorem alookup_aset {α : Type} (l : List (String × α)) (key k2 : String) (v : α) :
    alookup (aset l key v) k2 = if key = k2 then some v else alookup l k2 := by
  induction l with
  | nil => simp [aset, alookup]
  | cons p rest ih =>
    obtain ⟨k, w⟩ := p
    by_cases hk : k = key
    · subst hk
      by_cases h2 : k = k2 <;> simp [aset, alookup, h2]
    · by_cases h1 : k = k2
      · subst h1
        have h2 : ¬key = k := fun h => hk h.symm
        simp [aset, alookup, hk, h2]
      · simp [aset, alookup, hk, h1, ih]

theorem alookup_aset_self {α : Type} (l : List (String × α)) (key : String) (v : α) :
    alookup (aset l key v) key = some v := by
  rw [alookup_aset]
  simp

theorem mem_aset {α : Type} {l : List (String × α)} {key : String} {v : α}
    {p : String × α} (h : p ∈ aset l key v) : p = (key, v) ∨ p ∈ l := by
  induction l with
  | nil => simpa [aset] using h
  | cons q rest ih =>
    obtain ⟨k, w⟩ := q
    by_cases hk : k = key
    · subst hk
      rcases (by simpa [aset] using h : p = (k, v) ∨ p ∈ rest) with h1 | h1
      · exact Or.inl h1
      · exact Or.inr (List.mem_cons_of_mem _ h1)
    · rcases (by simpa [aset, hk] using h : p = (k, w) ∨ p ∈ aset rest key v) with h1 | h1
      · exact Or.inr (h1 ▸ List.mem_cons_self _ _)
      · rcases ih h1 with h2 | h2
        · exact Or.inl h2
        · exact Or.inr (List.mem_cons_of_mem _ h2)

/-! ## Projection lemmas for `create_error_context` -/

theorem cec_error_type (et m a t : String) (now : Int) :
    (create_error_context et m a t now).error_type = et := rfl

theorem cec_agent_role (et m a t : String) (now : Int) :
    (create_error_context et m a t now).agent_role = a := rfl

theorem cec_task_id (et m a t : String) (now : Int) :
    (create_error_context et m a t now).task_id = t := rfl

/-! ## Behaviour of `update_circuit_breaker` -/

/-- Recording a failed outcome leaves the breaker entry with its failure
count incremented, and open with `opened_at = now` as soon as the count
reaches the threshold. -/
theorem update_fail_fc (cbs : List (String × BreakerInfo)) (a k : String) (t : Int) :
    ∃ bi, alookup (update_circuit_breaker cbs a k false t) (breaker_key a k) = some bi ∧
      bi.failure_count =
        ((alookup cbs (breaker_key a k)).getD ⟨0, false, none⟩).failure_count + 1 ∧
      (circuit_breaker_threshold ≤ bi.failure_count →
        bi.is_open = true ∧ bi.opened_at = some t) := by
  unfold update_circuit_breaker
  by_cases h :
      ((alookup cbs (breaker_key a k)).getD ⟨0, false, none⟩).failure_count + 1 ≥
        circuit_breaker_threshold
  · simp only [Bool.false_eq_true, if_false, if_pos h]
    exact ⟨_, alookup_aset_self .., rfl, fun _ => ⟨rfl, rfl⟩⟩
  · simp only [Bool.false_eq_true, if_false, if_neg h]
    exact ⟨_, alookup_aset_self .., rfl, fun hc => absurd hc h⟩

/-- Recording a successful outcome zeroes the failure count, closes the
breaker, and keeps the previous `opened_at` value. -/
theorem update_success_lookup (cbs : List (String × BreakerInfo)) (a k : String) (now : Int) :
    alookup (update_circuit_breaker cbs a k true now) (breaker_key a k) =
      some { failure_count := 0, is_open := false,
             opened_at := ((alookup cbs (breaker_key a k)).getD ⟨0, false, none⟩).opened_at } := by
  unfold update_circuit_breaker
  simp only [if_pos rfl, if_true]
  exact alookup_aset_self ..

/-! ## Branch lemmas for `handle_error` and `attempt_recovery` -/

/-- When the breaker query raises, `handle_error` propagates the exception. -/
theorem handle_error_err (s : ErrorHandlerState) (et msg a task : String) (now : Int)
    (e : String)
    (hb : is_circuit_breaker_open s.circuit_breakers a et now = Except.error e) :
    handle_error s et msg a task now = Except.error e := by
  simp only [handle_error, cec_error_type, hb]

/-- When the breaker query returns true, `handle_error` short-circuits. -/
theorem handle_error_open (s : ErrorHandlerState) (et msg a task : String) (now : Int)
    (cbs2 : List (String × BreakerInfo))
    (hb : is_circuit_breaker_open s.circuit_breakers a et now = Except.ok (true, cbs2)) :
    handle_error s et msg a task now =
      Except.ok (handle_circuit_breaker_open a (create_error_context et msg a task now),
        { error_history := s.error_history ++ [create_error_context et msg a task now]
          recovery_strategies := s.recovery_strategies
          circuit_breakers := cbs2
          retry_counts := s.retry_counts }) := by
  simp only [handle_error, cec_error_type, hb]

/-- When the breaker query returns false, `handle_error` attempts recovery
and records the outcome on the breaker. -/
theorem handle_error_closed (s : ErrorHandlerState) (et msg a task : String) (now : Int)
    (cbs2 : List (String × BreakerInfo))
    (hb : is_circuit_breaker_open s.circuit_breakers a et now = Except.ok (false, cbs2)) :
    handle_error s et msg a task now =
      Except.ok
        ((attempt_recovery s.recovery_strategies s.retry_counts
            (create_error_context et msg a task now)).1,
         { error_history := s.error_history ++ [create_error_context et msg a task now]
           recovery_strategies := s.recovery_strategies
           circuit_breakers := (update_circuit_breaker cbs2 a et
             (attempt_recovery s.recovery_strategies s.retry_counts
               (create_error_context et msg a task now)).1.success now)
           retry_counts := (attempt_recovery s.recovery_strategies s.retry_counts
             (create_error_context et msg a task now)).2 }) := by
  simp only [handle_error, cec_error_type, hb]

/-- Exhausted retry budget: `attempt_recovery` refuses without touching the
retry table and without invoking any handler. -/
theorem attempt_recovery_exhausted (strategies : List (String × StrategyInfo))
    (rc : List (String × Nat)) (ec : ErrorContext)
    (h : (alookup rc (retry_key ec.agent_role ec.task_id ec.error_type)).getD 0 ≥ max_retries) :
    attempt_recovery strategies rc ec =
      ({ success := false
         strategy := "max_retries_exceeded"
         message := "Maximum retries (3) exceeded"
         recovery_action := none }, rc) := by
  simp only [attempt_recovery, if_pos h]

/-- A registered handler that raises: the exception is caught and folded into
a failed result; the retry table is left unchanged. -/
theorem attempt_recovery_handler_raises (strategies : List (String × StrategyInfo))
    (rc : List (String × Nat)) (ec : ErrorContext) (si : StrategyInfo) (emsg : String)
    (hreg : alookup strategies ec.error_type = some si)
    (hbudget : (alookup rc (retry_key ec.agent_role ec.task_id ec.error_type)).getD 0 < max_retries)
    (hraise : si.handler ec = Except.error emsg) :
    attempt_recovery strategies rc ec =
      ({ success := false
         strategy := si.strategy.value
         message := "Recovery failed: " ++ emsg
         recovery_action := none }, rc) := by
  simp only [attempt_recovery, hreg, if_neg (not_le.mpr hbudget), hraise]

/-- No registered strategy: the default retry handler runs, succeeds, and the
retry counter for the triple is reset to 0. -/
theorem attempt_recovery_default (strategies : List (String × StrategyInfo))
    (rc : List (String × Nat)) (ec : ErrorContext)
    (hunreg : alookup strategies ec.error_type = none)
    (hbudget : (alookup rc (retry_key ec.agent_role ec.task_id ec.error_type)).getD 0 < max_retries) :
    attempt_recovery strategies rc ec =
      ({ success := true
         strategy := "retry"
         message := "Retrying operation"
         recovery_action := some
           { strategy := RecoveryStrategy.RETRY
             description := "Retry the failed operation"
             parameters := [("delay", ParamValue.int 5)]
             success_probability := 0.6
             estimated_duration := 5 } },
       aset rc (retry_key ec.agent_role ec.task_id ec.error_type) 0) := by
  simp only [attempt_recovery, hunreg, if_neg (not_le.mpr hbudget), default_retry_handler]
  simp

/-- Case analysis of `attempt_recovery`'s effect on the retry table: either
it refuses (budget exhausted) or the handler raised, leaving the table
unchanged with a failed result; or the handler succeeded and the triple's
counter is reset to 0; or the handler returned failure under budget and the
counter is bumped by one. -/
theorem attempt_recovery_cases (strategies : List (String × StrategyInfo))
    (rc : List (String × Nat)) (ec : ErrorContext) (r : RecoveryResult)
    (rc2 : List (String × Nat))
    (h : attempt_recovery strategies rc ec = (r, rc2)) :
    (r.success = false ∧ rc2 = rc) ∨
    (r.success = true ∧
      rc2 = aset rc (retry_key ec.agent_role ec.task_id ec.error_type) 0) ∨
    (r.success = false ∧
      (alookup rc (retry_key ec.agent_role ec.task_id ec.error_type)).getD 0 < max_retries ∧
      rc2 = aset rc (retry_key ec.agent_role ec.task_id ec.error_type)
        ((alookup rc (retry_key ec.agent_role ec.task_id ec.error_type)).getD 0 + 1)) := by
  by_cases hbudget :
      (alookup rc (retry_key ec.agent_role ec.task_id ec.error_type)).getD 0 ≥ max_retries
  · rw [attempt_recovery_exhausted strategies rc ec hbudget] at h
    obtain ⟨h1, h2⟩ := Prod.mk.injEq .. ▸ h
    exact Or.inl ⟨by rw [← h1], h2.symm⟩
  · have hlt : (alookup rc (retry_key ec.agent_role ec.task_id ec.error_type)).getD 0 <
        max_retries := not_le.mp hbudget
    simp only [attempt_recovery, if_neg hbudget] at h
    cases hh : (match alookup strategies ec.error_type with
        | some si => si
        | none =>
            { strategy := RecoveryStrategy.RETRY
              handler := default_retry_handler
              success_probability := 0.5 } : StrategyInfo).handler ec with
    | ok rr =>
        rw [hh] at h
        by_cases hs : rr.success
        · simp only [hs, if_true] at h
          obtain ⟨h1, h2⟩ := Prod.mk.injEq .. ▸ h
          exact Or.inr (Or.inl ⟨by rw [← h1, hs], h2.symm⟩)
        · simp only [hs, if_false] at h
          obtain ⟨h1, h2⟩ := Prod.mk.injEq .. ▸ h
          refine Or.inr (Or.inr ⟨?_, hlt, h2.symm⟩)
          rw [← h1]
          exact Bool.not_eq_true rr.success ▸ (by simpa using hs)
    | error e =>
        rw [hh] at h
        obtain ⟨h1, h2⟩ := Prod.mk.injEq .. ▸ h
        exact Or.inl ⟨by rw [← h1], h2.symm⟩

/-! ## Claims -/

/-- C7: `determine_error_severity` is a pure total function returning
CRITICAL on {SystemExit, KeyboardInterrupt, MemoryError}, HIGH on
{ConnectionError, TimeoutError, FileNotFoundError}, MEDIUM on
{ValueError, TypeError, KeyError}, and LOW on every other kind, for every
message.  Determinism on repeated calls is inherent: the classifier is a
mathematical function of its two arguments. -/
theorem c7_classification_table (et m : String) :
    determine_error_severity et m =
      if et ∈ (["SystemExit", "KeyboardInterrupt", "MemoryError"] : List String) then
        ErrorSeverity.CRITICAL
      else if et ∈ (["ConnectionError", "TimeoutError", "FileNotFoundError"] : List String) then
        ErrorSeverity.HIGH
      else if et ∈ (["ValueError", "TypeError", "KeyError"] : List String) then
        ErrorSeverity.MEDIUM
      else ErrorSeverity.LOW := by
  simp [determine_error_severity, List.contains, List.elem_eq_mem]

/-- C9: the computed severity does not depend on the message argument —
classifying the same fault kind with any two messages yields the same
severity (noninterference of the message channel). -/
theorem c9_message_noninterference (k m1 m2 : String) :
    determine_error_severity k m1 = determine_error_severity k m2 := rfl

/-- C1: the claim that `handle` never raises for expected fault kinds is
violated by the code: the first call for a pair creates a breaker entry with
`opened_at = None`, and the second call for the same (actor, fault_kind)
pair evaluates `datetime.now() - None` inside `is_circuit_breaker_open`,
raising `TypeError`.  This theorem runs the embedded engine on that input:
the first call returns a decision, the second raises. -/
theorem c1_second_call_raises :
    ∃ r1 s1,
      handle_error initState "ValueError" "invalid literal" "engineer" "t1" 0 =
        Except.ok (r1, s1) ∧
      handle_error s1 "ValueError" "invalid literal" "engineer" "t2" 1 =
        Except.error
          "TypeError: unsupported operand type(s) for -: 'datetime.datetime' and 'NoneType'" :=
  ⟨_, _, rfl, rfl⟩

/-- C2: after five consecutive `success=false` outcomes recorded on the
breaker of an (actor, fault_kind) pair — task_ids play no role, the breaker
key is only (actor, fault_kind) — the next `handle` call for that pair
(within the 300s breaker timeout of the fifth failure, for any task_id)
returns `succeeded=false`, strategy `"circuit_breaker_open"` and an ESCALATE
recovery action, and short-circuits: the post-state shows the retry-counter
table, the strategy registry and the breaker table all untouched (only the
history grows), and the returned decision is a constant not involving any
registered strategy. -/
theorem c2_breaker_trip (s : ErrorHandlerState) (a k msg task : String)
    (t1 t2 t3 t4 t5 now : Int) (hnow : now - t5 ≤ circuit_breaker_timeout) :
    handle_error
        { s with circuit_breakers := record_five_failures s.circuit_breakers a k t1 t2 t3 t4 t5 }
        k msg a task now =
      Except.ok (handle_circuit_breaker_open a (create_error_context k msg a task now),
        { s with
            circuit_breakers := record_five_failures s.circuit_breakers a k t1 t2 t3 t4 t5,
            error_history := s.error_history ++ [create_error_context k msg a task now] }) ∧
    (handle_circuit_breaker_open a (create_error_context k msg a task now)).success = false ∧
    (handle_circuit_breaker_open a (create_error_context k msg a task now)).strategy =
      "circuit_breaker_open" ∧
    (handle_circuit_breaker_open a (create_error_context k msg a task now)).recovery_action.map
        RecoveryAction.strategy = some RecoveryStrategy.ESCALATE := by
  obtain ⟨b1, hb1, hfc1, -⟩ := update_fail_fc s.circuit_breakers a k t1
  obtain ⟨b2, hb2, hfc2, -⟩ :=
    update_fail_fc (update_circuit_breaker s.circuit_breakers a k false t1) a k t2
  obtain ⟨b3, hb3, hfc3, -⟩ :=
    update_fail_fc
      (update_circuit_breaker (update_circuit_breaker s.circuit_breakers a k false t1)
        a k false t2) a k t3
  obtain ⟨b4, hb4, hfc4, -⟩ :=
    update_fail_fc
      (update_circuit_breaker
        (update_circuit_breaker (update_circuit_breaker s.circuit_breakers a k false t1)
          a k false t2) a k false t3) a k t4
  obtain ⟨b5, hb5, hfc5, hopen5⟩ :=
    update_fail_fc
      (update_circuit_breaker
        (update_circuit_breaker
          (update_circuit_breaker (update_circuit_breaker s.circuit_breakers a k false t1)
            a k false t2) a k false t3) a k false t4) a k t5
  rw [hb1] at hfc2
  rw [hb2] at hfc3
  rw [hb3] at hfc4
  rw [hb4] at hfc5
  simp only [Option.getD_some] at hfc2 hfc3 hfc4 hfc5
  have h5 : circuit_breaker_threshold ≤ b5.failure_count := by
    simp only [circuit_breaker_threshold]
    omega
  obtain ⟨hopen, hat⟩ := hopen5 h5
  have hnot : ¬(now - t5 > circuit_breaker_timeout) := by omega
  have hb5g : alookup (record_five_failures s.circuit_breakers a k t1 t2 t3 t4 t5)
      (breaker_key a k) = some b5 := hb5
  clear hb1 hb2 hb3 hb4 hb5 hfc1 hopen5
  generalize hG : record_five_failures s.circuit_breakers a k t1 t2 t3 t4 t5 = cbs5 at hb5g ⊢
  refine ⟨?_, rfl, rfl, rfl⟩
  simp only [handle_error, is_circuit_breaker_open, cec_error_type, hb5g, hat, hopen,
    if_neg hnot]

/-- C2 witness: the trip theorem instantiated at a concrete engine with five
failures recorded at time 0 and the sixth call at time 0. -/
theorem c2_breaker_trip_witness :
    (0:Int) - 0 ≤ circuit_breaker_timeout ∧
    (handle_error
        { initState with
            circuit_breakers := record_five_failures initState.circuit_breakers
              "engineer" "FlakyError" 0 0 0 0 0 }
        "FlakyError" "flaky" "engineer" "t6" 0 =
      Except.ok
        (handle_circuit_breaker_open "engineer"
          (create_error_context "FlakyError" "flaky" "engineer" "t6" 0),
        { initState with
            circuit_breakers := record_five_failures initState.circuit_breakers
              "engineer" "FlakyError" 0 0 0 0 0,
            error_history := initState.error_history ++
              [create_error_context "FlakyError" "flaky" "engineer" "t6" 0] }) ∧
    (handle_circuit_breaker_open "engineer"
        (create_error_context "FlakyError" "flaky" "engineer" "t6" 0)).success = false ∧
    (handle_circuit_breaker_open "engineer"
        (create_error_context "FlakyError" "flaky" "engineer" "t6" 0)).strategy =
      "circuit_breaker_open" ∧
    (handle_circuit_breaker_open "engineer"
        (create_error_context "FlakyError" "flaky" "engineer" "t6" 0)).recovery_action.map
        RecoveryAction.strategy = some RecoveryStrategy.ESCALATE) :=
  ⟨by decide,
    c2_breaker_trip initState "engineer" "FlakyError" "flaky" "t6" 0 0 0 0 0 0 (by decide)⟩

/-- C5 counterexample: recording a single success on an OPEN breaker entry
whose `opened_at` is 100 zeroes the failure count and closes the breaker but
leaves `opened_at = 100` — it is not set back to null, contrary to the claim. -/
theorem c5_counterexample :
    ∃ bi, alookup
        (update_circuit_breaker
          [("alpha_KeyError",
            { failure_count := 5, is_open := true, opened_at := some 100 })]
          "alpha" "KeyError" true 200)
        "alpha_KeyError" = some bi ∧
      bi.failure_count = 0 ∧ bi.is_open = false ∧ bi.opened_at ≠ none :=
  ⟨_, rfl, rfl, rfl, by decide⟩

/-- C5 (amended): for every breaker entry in any state, recording a single
`success=true` outcome sets `failure_count` to 0 and forces the state to
CLOSED, but leaves `opened_at` unchanged (the code does not null it). -/
theorem c5_amended_success_reset (cbs : List (String × BreakerInfo)) (a k : String)
    (bi : BreakerInfo) (now : Int) (h : alookup cbs (breaker_key a k) = some bi) :
    alookup (update_circuit_breaker cbs a k true now) (breaker_key a k) =
      some { failure_count := 0, is_open := false, opened_at := bi.opened_at } := by
  simp [update_success_lookup, h]

/-- C5 witness: the amended reset theorem at a concrete open entry. -/
theorem c5_amended_success_reset_witness :
    alookup
        (update_circuit_breaker
          [("a_K", { failure_count := 2, is_open := false, opened_at := some 7 })]
          "a" "K" true 50)
        (breaker_key "a" "K") =
      some { failure_count := 0, is_open := false, opened_at := some 7 } :=
  c5_amended_success_reset
    [("a_K", { failure_count := 2, is_open := false, opened_at := some 7 })]
    "a" "K" { failure_count := 2, is_open := false, opened_at := some 7 } 50 rfl

/-- C3: when the retry counter of an (actor, task_id, fault_kind) triple has
reached `max_retries` and the breaker query answers "closed", `handle`
returns `succeeded=false` with strategy `"max_retries_exceeded"`, leaves the
retry table untouched, and still records a `success=false` outcome on the
(actor, fault_kind) breaker (its failure count grows by one).  The second
conjunct shows no registered strategy handler is invoked: the same decision
and effects result for every possible strategy registry. -/
theorem c3_budget_cutoff (s : ErrorHandlerState) (a task k msg : String) (now : Int)
    (c : Nat) (cbs2 : List (String × BreakerInfo))
    (hretry : alookup s.retry_counts (retry_key a task k) = some c)
    (hc : max_retries ≤ c)
    (hb : is_circuit_breaker_open s.circuit_breakers a k now = Except.ok (false, cbs2)) :
    handle_error s k msg a task now =
      Except.ok
        ({ success := false
           strategy := "max_retries_exceeded"
           message := "Maximum retries (3) exceeded"
           recovery_action := none },
         { error_history := s.error_history ++ [create_error_context k msg a task now]
           recovery_strategies := s.recovery_strategies
           circuit_breakers := update_circuit_breaker cbs2 a k false now
           retry_counts := s.retry_counts }) ∧
    (∀ strategies2, handle_error { s with recovery_strategies := strategies2 } k msg a task now =
      Except.ok
        ({ success := false
           strategy := "max_retries_exceeded"
           message := "Maximum retries (3) exceeded"
           recovery_action := none },
         { error_history := s.error_history ++ [create_error_context k msg a task now]
           recovery_strategies := strategies2
           circuit_breakers := update_circuit_breaker cbs2 a k false now
           retry_counts := s.retry_counts })) ∧
    (∃ bi, alookup (update_circuit_breaker cbs2 a k false now) (breaker_key a k) = some bi ∧
      bi.failure_count =
        ((alookup cbs2 (breaker_key a k)).getD ⟨0, false, none⟩).failure_count + 1) := by
  have hx : (alookup s.retry_counts
      (retry_key (create_error_context k msg a task now).agent_role
        (create_error_context k msg a task now).task_id
        (create_error_context k msg a task now).error_type)).getD 0 ≥ max_retries := by
    simp only [cec_agent_role, cec_task_id, cec_error_type, hretry, Option.getD_some]
    exact hc
  have key : ∀ strategies2,
      handle_error { s with recovery_strategies := strategies2 } k msg a task now =
        Except.ok
          ({ success := false
             strategy := "max_retries_exceeded"
             message := "Maximum retries (3) exceeded"
             recovery_action := none },
           { error_history := s.error_history ++ [create_error_context k msg a task now]
             recovery_strategies := strategies2
             circuit_breakers := update_circuit_breaker cbs2 a k false now
             retry_counts := s.retry_counts }) := by
    intro strategies2
    rw [handle_error_closed { s with recovery_strategies := strategies2 } k msg a task now cbs2 hb,
      attempt_recovery_exhausted strategies2 s.retry_counts _ hx]
  obtain ⟨bi, hbi, hfc, -⟩ := update_fail_fc cbs2 a k now
  exact ⟨key s.recovery_strategies, key, bi, hbi, hfc⟩

/-- C3 witness: the cutoff theorem at a concrete engine whose counter for the
triple (alpha, t1, KeyError) already equals 3. -/
theorem c3_budget_cutoff_witness :
    (alookup ({ initState with retry_counts := [("alpha_t1_KeyError", 3)] }).retry_counts
        (retry_key "alpha" "t1" "KeyError") = some 3) ∧
    (max_retries ≤ 3) ∧
    (is_circuit_breaker_open
        ({ initState with retry_counts := [("alpha_t1_KeyError", 3)] }).circuit_breakers
        "alpha" "KeyError" 0 = Except.ok (false, [])) ∧
    (handle_error { initState with retry_counts := [("alpha_t1_KeyError", 3)] }
        "KeyError" "missing" "alpha" "t1" 0 =
      Except.ok
        ({ success := false
           strategy := "max_retries_exceeded"
           message := "Maximum retries (3) exceeded"
           recovery_action := none },
         { error_history := ({ initState with
             retry_counts := [("alpha_t1_KeyError", 3)] }).error_history ++
             [create_error_context "KeyError" "missing" "alpha" "t1" 0]
           recovery_strategies := ({ initState with
             retry_counts := [("alpha_t1_KeyError", 3)] }).recovery_strategies
           circuit_breakers := update_circuit_breaker [] "alpha" "KeyError" false 0
           retry_counts := ({ initState with
             retry_counts := [("alpha_t1_KeyError", 3)] }).retry_counts }) ∧
      (∀ strategies2, handle_error
          { { initState with retry_counts := [("alpha_t1_KeyError", 3)] } with
              recovery_strategies := strategies2 } "KeyError" "missing" "alpha" "t1" 0 =
        Except.ok
          ({ success := false
             strategy := "max_retries_exceeded"
             message := "Maximum retries (3) exceeded"
             recovery_action := none },
           { error_history := ({ initState with
               retry_counts := [("alpha_t1_KeyError", 3)] }).error_history ++
               [create_error_context "KeyError" "missing" "alpha" "t1" 0]
             recovery_strategies := strategies2
             circuit_breakers := update_circuit_breaker [] "alpha" "KeyError" false 0
             retry_counts := ({ initState with
               retry_counts := [("alpha_t1_KeyError", 3)] }).retry_counts })) ∧
      (∃ bi, alookup (update_circuit_breaker [] "alpha" "KeyError" false 0)
          (breaker_key "alpha" "KeyError") = some bi ∧
        bi.failure_count =
          ((alookup ([] : List (String × BreakerInfo)) (breaker_key "alpha" "KeyError")).getD ⟨0, false, none⟩).failure_count
            + 1)) :=
  ⟨rfl, by decide,
    rfl,
    c3_budget_cutoff { initState with retry_counts := [("alpha_t1_KeyError", 3)] }
      "alpha" "t1" "KeyError" "missing" 0 3 [] rfl (by decide) rfl⟩

/-- C4: the claim as frozen is refuted on the code: with a registered handler
that raises, `handle` returns an `Except.ok` decision (the exception is
caught) with `succeeded=false` and the handler's message, but the retry
counter for the triple is NOT incremented — it stays 0 where the claim
requires 1 (the `except` branch of `attempt_recovery` returns before the
counter update). -/
theorem c4_counterexample :
    ∃ r s2, handle_error boom_state "BoomError" "m" "alpha" "t1" 0 = Except.ok (r, s2) ∧
      boom_handler (create_error_context "BoomError" "m" "alpha" "t1" 0) =
        Except.error "boom" ∧
      r.success = false ∧
      r.message = "Recovery failed: boom" ∧
      attempts_so_far boom_state "alpha" "t1" "BoomError" = 0 ∧
      attempts_so_far s2 "alpha" "t1" "BoomError" = 0 :=
  ⟨_, _, rfl, rfl, rfl, rfl, rfl, rfl⟩

/-- C4 (amended): for every registered strategy whose handler raises on the
invocation, `handle` catches the exception (it returns a decision, never
re-raises), the decision carries `succeeded=false` and the handler's
exception message, a `success=false` outcome is recorded on the breaker
(failure count grows by one), but the retry counter of the triple is left
unchanged — it is not incremented. -/
theorem c4_handler_exception (s : ErrorHandlerState) (a task k msg emsg : String)
    (now : Int) (si : StrategyInfo) (cbs2 : List (String × BreakerInfo))
    (hreg : alookup s.recovery_strategies k = some si)
    (hraise : si.handler (create_error_context k msg a task now) = Except.error emsg)
    (hb : is_circuit_breaker_open s.circuit_breakers a k now = Except.ok (false, cbs2))
    (hbudget : (alookup s.retry_counts (retry_key a task k)).getD 0 < max_retries) :
    handle_error s k msg a task now =
      Except.ok
        ({ success := false
           strategy := si.strategy.value
           message := "Recovery failed: " ++ emsg
           recovery_action := none },
         { error_history := s.error_history ++ [create_error_context k msg a task now]
           recovery_strategies := s.recovery_strategies
           circuit_breakers := update_circuit_breaker cbs2 a k false now
           retry_counts := s.retry_counts }) ∧
    (∃ bi, alookup (update_circuit_breaker cbs2 a k false now) (breaker_key a k) = some bi ∧
      bi.failure_count =
        ((alookup cbs2 (breaker_key a k)).getD ⟨0, false, none⟩).failure_count + 1) := by
  have hreg2 : alookup s.recovery_strategies
      (create_error_context k msg a task now).error_type = some si := hreg
  have hbudget2 : (alookup s.retry_counts
      (retry_key (create_error_context k msg a task now).agent_role
        (create_error_context k msg a task now).task_id
        (create_error_context k msg a task now).error_type)).getD 0 < max_retries := hbudget
  constructor
  · rw [handle_error_closed s k msg a task now cbs2 hb,
      attempt_recovery_handler_raises s.recovery_strategies s.retry_counts _ si emsg
        hreg2 hbudget2 hraise]
  · obtain ⟨bi, hbi, hfc, -⟩ := update_fail_fc cbs2 a k now
    exact ⟨bi, hbi, hfc⟩

/-- C4 witness: the amended theorem at the concrete raising handler. -/
theorem c4_handler_exception_witness :
    (alookup boom_state.recovery_strategies "BoomError" =
      some { strategy := RecoveryStrategy.RETRY
             handler := boom_handler
             success_probability := 0.8 }) ∧
    (handle_error boom_state "BoomError" "m" "alpha" "t1" 0 =
      Except.ok
        ({ success := false
           strategy := RecoveryStrategy.RETRY.value
           message := "Recovery failed: " ++ "boom"
           recovery_action := none },
         { error_history := boom_state.error_history ++
             [create_error_context "BoomError" "m" "alpha" "t1" 0]
           recovery_strategies := boom_state.recovery_strategies
           circuit_breakers := update_circuit_breaker [] "alpha" "BoomError" false 0
           retry_counts := boom_state.retry_counts }) ∧
      ∃ bi, alookup (update_circuit_breaker [] "alpha" "BoomError" false 0)
          (breaker_key "alpha" "BoomError") = some bi ∧
        bi.failure_count =
          ((alookup ([] : List (String × BreakerInfo)) (breaker_key "alpha" "BoomError")).getD ⟨0, false, none⟩).failure_count
            + 1) :=
  ⟨rfl,
    c4_handler_exception boom_state "alpha" "t1" "BoomError" "m" "boom" 0
      { strategy := RecoveryStrategy.RETRY
        handler := boom_handler
        success_probability := 0.8 }
      [] rfl rfl rfl (by decide)⟩

/-- C10: for a fault kind with no registered strategy, with the breaker
query answering "closed" and the triple's counter under `max_retries`,
`handle` returns `succeeded=true`, strategy "retry", and a RETRY action with
`delay = 5`; the triple's counter is reset to 0 and a success is recorded on
the (actor, fault_kind) breaker, leaving it closed with failure count 0 —
so such a fault kind on its own never accumulates breaker failures. -/
theorem c10_default_retry (s : ErrorHandlerState) (a task k msg : String) (now : Int)
    (cbs2 : List (String × BreakerInfo))
    (hunreg : alookup s.recovery_strategies k = none)
    (hb : is_circuit_breaker_open s.circuit_breakers a k now = Except.ok (false, cbs2))
    (hbudget : (alookup s.retry_counts (retry_key a task k)).getD 0 < max_retries) :
    handle_error s k msg a task now =
      Except.ok
        ({ success := true
           strategy := "retry"
           message := "Retrying operation"
           recovery_action := some
             { strategy := RecoveryStrategy.RETRY
               description := "Retry the failed operation"
               parameters := [("delay", ParamValue.int 5)]
               success_probability := 0.6
               estimated_duration := 5 } },
         { error_history := s.error_history ++ [create_error_context k msg a task now]
           recovery_strategies := s.recovery_strategies
           circuit_breakers := update_circuit_breaker cbs2 a k true now
           retry_counts := aset s.retry_counts (retry_key a task k) 0 }) ∧
    alookup (update_circuit_breaker cbs2 a k true now) (breaker_key a k) =
      some { failure_count := 0
             is_open := false
             opened_at := ((alookup cbs2 (breaker_key a k)).getD ⟨0, false, none⟩).opened_at } ∧
    (alookup (aset s.retry_counts (retry_key a task k) 0) (retry_key a task k)).getD 0 = 0 := by
  have hunreg2 : alookup s.recovery_strategies
      (create_error_context k msg a task now).error_type = none := hunreg
  have hbudget2 : (alookup s.retry_counts
      (retry_key (create_error_context k msg a task now).agent_role
        (create_error_context k msg a task now).task_id
        (create_error_context k msg a task now).error_type)).getD 0 < max_retries := hbudget
  refine ⟨?_, update_success_lookup cbs2 a k now, ?_⟩
  · rw [handle_error_closed s k msg a task now cbs2 hb,
      attempt_recovery_default s.recovery_strategies s.retry_counts _ hunreg2 hbudget2]
    rfl
  · rw [alookup_aset_self]
    rfl

/-- C10 witness: the default-retry theorem on a fresh engine and the
unregistered kind "WeirdError". -/
theorem c10_default_retry_witness :
    (alookup initState.recovery_strategies "WeirdError" = none) ∧
    (is_circuit_breaker_open initState.circuit_breakers "alpha" "WeirdError" 0 =
      Except.ok (false, [])) ∧
    ((alookup initState.retry_counts (retry_key "alpha" "t1" "WeirdError")).getD 0 <
      max_retries) ∧
    (handle_error initState "WeirdError" "odd" "alpha" "t1" 0 =
      Except.ok
        ({ success := true
           strategy := "retry"
           message := "Retrying operation"
           recovery_action := some
             { strategy := RecoveryStrategy.RETRY
               description := "Retry the failed operation"
               parameters := [("delay", ParamValue.int 5)]
               success_probability := 0.6
               estimated_duration := 5 } },
         { error_history := initState.error_history ++
             [create_error_context "WeirdError" "odd" "alpha" "t1" 0]
           recovery_strategies := initState.recovery_strategies
           circuit_breakers := update_circuit_breaker [] "alpha" "WeirdError" true 0
           retry_counts := aset initState.retry_counts (retry_key "alpha" "t1" "WeirdError") 0 }) ∧
      alookup (update_circuit_breaker [] "alpha" "WeirdError" true 0)
          (breaker_key "alpha" "WeirdError") =
        some { failure_count := 0
               is_open := false
               opened_at := ((alookup ([] : List (String × BreakerInfo)) (breaker_key "alpha" "WeirdError")).getD
                 ⟨0, false, none⟩).opened_at } ∧
      (alookup (aset initState.retry_counts (retry_key "alpha" "t1" "WeirdError") 0)
          (retry_key "alpha" "t1" "WeirdError")).getD 0 = 0) :=
  ⟨rfl, rfl, by decide,
    c10_default_retry initState "alpha" "t1" "WeirdError" "odd" 0 [] rfl rfl (by decide)⟩

/-- One `handle_error` call that returns a decision preserves the retry
bound, keeps every triple's counter non-decreasing when the decision failed,
and zeroes the called triple's counter when the decision succeeded. -/
theorem retry_budget_step (s : ErrorHandlerState) (k msg a task : String)
    (now : Int) (r : RecoveryResult) (s2 : ErrorHandlerState)
    (h : handle_error s k msg a task now = Except.ok (r, s2)) :
    ((∀ p ∈ s.retry_counts, p.2 ≤ max_retries) →
      ∀ p ∈ s2.retry_counts, p.2 ≤ max_retries) ∧
    (r.success = false → ∀ a2 t2 k2,
      attempts_so_far s a2 t2 k2 ≤ attempts_so_far s2 a2 t2 k2) ∧
    (r.success = true → attempts_so_far s2 a task k = 0) := by
  cases hcb : is_circuit_breaker_open s.circuit_breakers a k now with
  | error e =>
      rw [handle_error_err s k msg a task now e hcb] at h
      exact absurd h (by simp)
  | ok p =>
      obtain ⟨b, cbs2⟩ := p
      cases b with
      | true =>
          rw [handle_error_open s k msg a task now cbs2 hcb] at h
          obtain ⟨h1, h2⟩ := Prod.mk.injEq .. ▸ Except.ok.inj h
          have hrc : s2.retry_counts = s.retry_counts := by rw [← h2]
          refine ⟨?_, ?_, ?_⟩
          · intro hbound
            rw [hrc]
            exact hbound
          · intro _ a2 t2 k2
            simp [attempts_so_far, hrc]
          · intro hs
            rw [← h1] at hs
            exact absurd hs (by simp [handle_circuit_breaker_open])
      | false =>
          rw [handle_error_closed s k msg a task now cbs2 hcb] at h
          obtain ⟨h1, h2⟩ := Prod.mk.injEq .. ▸ Except.ok.inj h
          have hrc : s2.retry_counts =
              (attempt_recovery s.recovery_strategies s.retry_counts
                (create_error_context k msg a task now)).2 := by rw [← h2]
          have hkey : retry_key (create_error_context k msg a task now).agent_role
              (create_error_context k msg a task now).task_id
              (create_error_context k msg a task now).error_type = retry_key a task k := rfl
          rcases attempt_recovery_cases s.recovery_strategies s.retry_counts
              (create_error_context k msg a task now)
              (attempt_recovery s.recovery_strategies s.retry_counts
                (create_error_context k msg a task now)).1
              (attempt_recovery s.recovery_strategies s.retry_counts
                (create_error_context k msg a task now)).2
              rfl with
            ⟨hsf, hch⟩ | ⟨hst, hch⟩ | ⟨hsf, hlt, hch⟩
          · refine ⟨?_, ?_, ?_⟩
            · intro hbound
              rw [hrc, hch]
              exact hbound
            · intro _ a2 t2 k2
              simp [attempts_so_far, hrc, hch]
            · intro hs
              rw [← h1, hsf] at hs
              exact absurd hs (by simp)
          · refine ⟨?_, ?_, ?_⟩
            · intro hbound
              rw [hrc, hch, hkey]
              intro p hp
              rcases mem_aset hp with h3 | h3
              · rw [h3]
                exact Nat.zero_le _
              · exact hbound p h3
            · intro hs
              rw [← h1, hst] at hs
              exact absurd hs (by simp)
            · intro _
              simp only [attempts_so_far, hrc, hch, hkey, alookup_aset_self, Option.getD_some]
          · rw [hkey] at hlt
            refine ⟨?_, ?_, ?_⟩
            · intro hbound
              rw [hrc, hch, hkey]
              intro p hp
              rcases mem_aset hp with h3 | h3
              · rw [h3]
                simp only [max_retries] at hlt ⊢
                omega
              · exact hbound p h3
            · intro _ a2 t2 k2
              simp only [attempts_so_far, hrc, hch, hkey, alookup_aset]
              by_cases hk : retry_key a task k = retry_key a2 t2 k2
              · rw [if_pos hk, ← hk]
                simp only [Option.getD_some]
                omega
              · rw [if_neg hk]
            · intro hs
              rw [← h1, hsf] at hs
              exact absurd hs (by simp)

/-- C6: in every state reachable by any sequence of registrations and
`handle` calls from a fresh engine, every retry counter is at most
`max_retries` (= 3); and across any single `handle` call returning a
decision, every triple's counter is non-decreasing when the decision
reports `succeeded=false`, and the called triple's counter is exactly 0
immediately after a decision reporting `succeeded=true`. -/
theorem c6_retry_budget_invariant :
    (∀ s, Reachable s → ∀ p ∈ s.retry_counts, p.2 ≤ max_retries) ∧
    (∀ (s : ErrorHandlerState) (k msg a task : String) (now : Int)
        (r : RecoveryResult) (s2 : ErrorHandlerState),
      handle_error s k msg a task now = Except.ok (r, s2) →
      (r.success = false → ∀ a2 t2 k2,
        attempts_so_far s a2 t2 k2 ≤ attempts_so_far s2 a2 t2 k2) ∧
      (r.success = true → attempts_so_far s2 a task k = 0)) := by
  constructor
  · intro s hs
    induction hs with
    | init => simp [initState]
    | register s1 et st hd p hs1 ih =>
        simpa [register_recovery_strategy] using ih
    | handled s1 et msg a task now r s2 hs1 h ih =>
        exact (retry_budget_step s1 et msg a task now r s2 h).1 ih
    | handled_err s1 et msg a task now e hs1 h ih =>
        simpa using ih
  · intro s k msg a task now r s2 h
    exact ⟨(retry_budget_step s k msg a task now r s2 h).2.1,
      (retry_budget_step s k msg a task now r s2 h).2.2⟩

/-- C6 witness: the fresh engine is reachable and satisfies the bound, and
the per-call clauses instantiated at the first call on a fresh engine. -/
theorem c6_retry_budget_invariant_witness :
    (∀ p ∈ initState.retry_counts, p.2 ≤ max_retries) ∧
    (handle_error initState "E" "m" "a" "t" 0 = Except.ok (c6_result, c6_post)) ∧
    ((c6_result.success = false → ∀ a2 t2 k2,
        attempts_so_far initState a2 t2 k2 ≤ attempts_so_far c6_post a2 t2 k2) ∧
     (c6_result.success = true → attempts_so_far c6_post "a" "t" "E" = 0)) :=
  ⟨c6_retry_budget_invariant.1 initState Reachable.init, rfl,
    c6_retry_budget_invariant.2 initState "E" "m" "a" "t" 0 c6_result c6_post rfl⟩

/-- C8 counterexample: on an engine with an empty error history,
`get_error_statistics` returns the bare `{"total_errors": 0}` dict, which
does not contain the recent count, the breakdowns, the open-breaker count or
the retry counters — and `create_error_report` on that engine raises
`KeyError` instead of producing recommendations. -/
theorem c8_counterexample :
    stats_has_all_fields (get_error_statistics initState 0) = false ∧
    get_error_statistics initState 0 = StatsResult.emptyStats 0 ∧
    create_error_report initState 0 = Except.error "KeyError: 'recent_errors'" :=
  ⟨rfl, rfl, rfl⟩

/-- C8 (amended): for every engine state with a NONEMPTY error history,
`get_error_statistics` returns the full dict containing all of: total count,
recent (last-hour) count, breakdowns by severity, actor and fault kind, the
open-breaker count and the active retry counters (on an empty history it
returns only `{"total_errors": 0}`).  The recommendations follow exactly the
threshold rules: on any full statistics dict, each of total > 100,
recent > 10, open breakers > 0 contributes its recommendation, every fault
kind with count > 20 contributes its recommendation, and every
recommendation in the list arises from one of these four rules; the
recommendations of any report returned by `create_error_report` are exactly
those computed from the engine's statistics. -/
theorem c8_statistics_and_recommendations :
    (∀ (s : ErrorHandlerState) (now : Int), s.error_history ≠ [] →
      ∃ st, get_error_statistics s now = StatsResult.fullStats st ∧
        st.total_errors = s.error_history.length ∧
        st.recent_errors =
          (s.error_history.filter (fun e => e.timestamp > now - 3600)).length ∧
        st.severity_breakdown =
          s.error_history.foldl (fun acc e => ainc acc e.severity.value) [] ∧
        st.agent_breakdown = s.error_history.foldl (fun acc e => ainc acc e.agent_role) [] ∧
        st.error_type_breakdown =
          s.error_history.foldl (fun acc e => ainc acc e.error_type) [] ∧
        st.circuit_breakers_open =
          (s.circuit_breakers.filter (fun p => p.2.is_open)).length ∧
        st.active_retry_counts = s.retry_counts) ∧
    (∀ st : FullStats, ∃ recs,
      generate_error_recommendations (StatsResult.fullStats st) = Except.ok recs ∧
      (st.total_errors > 100 →
        "High error count detected - consider system stability review" ∈ recs) ∧
      (st.recent_errors > 10 →
        "Recent error spike detected - investigate recent changes" ∈ recs) ∧
      (st.circuit_breakers_open > 0 →
        (toString st.circuit_breakers_open ++
          " circuit breakers are open - manual intervention may be required") ∈ recs) ∧
      (∀ p ∈ st.error_type_breakdown, p.2 > 20 →
        ("High frequency of " ++ p.1 ++ " errors - consider preventive measures") ∈ recs) ∧
      (∀ r ∈ recs,
        (r = "High error count detected - consider system stability review" ∧
          st.total_errors > 100) ∨
        (r = "Recent error spike detected - investigate recent changes" ∧
          st.recent_errors > 10) ∨
        (r = toString st.circuit_breakers_open ++
            " circuit breakers are open - manual intervention may be required" ∧
          st.circuit_breakers_open > 0) ∨
        (∃ p ∈ st.error_type_breakdown, p.2 > 20 ∧
          r = "High frequency of " ++ p.1 ++ " errors - consider preventive measures"))) ∧
    (∀ (s : ErrorHandlerState) (now : Int) (rep : ErrorReport),
      create_error_report s now = Except.ok rep →
      generate_error_recommendations (get_error_statistics s now) =
        Except.ok rep.recommendations) := by
  refine ⟨?_, ?_, ?_⟩
  · intro s now hne
    have hlen : ¬s.error_history.length = 0 := fun hl => hne (List.length_eq_zero.mp hl)
    refine ⟨{ total_errors := s.error_history.length
              recent_errors :=
                (s.error_history.filter (fun e => e.timestamp > now - 3600)).length
              severity_breakdown :=
                s.error_history.foldl (fun acc e => ainc acc e.severity.value) []
              agent_breakdown := s.error_history.foldl (fun acc e => ainc acc e.agent_role) []
              error_type_breakdown :=
                s.error_history.foldl (fun acc e => ainc acc e.error_type) []
              circuit_breakers_open :=
                (s.circuit_breakers.filter (fun p => p.2.is_open)).length
              active_retry_counts := s.retry_counts },
      ?_, rfl, rfl, rfl, rfl, rfl, rfl, rfl⟩
    simp only [get_error_statistics, if_neg hlen]
  · intro st
    refine ⟨_, rfl, ?_, ?_, ?_, ?_, ?_⟩
    · intro hc
      simp [List.mem_append, hc]
    · intro hc
      simp [List.mem_append, hc]
    · intro hc
      simp [List.mem_append, hc]
    · intro p hp h20
      refine List.mem_append.mpr (Or.inr ?_)
      exact List.mem_map.mpr ⟨p, List.mem_filter.mpr ⟨hp, by simpa using h20⟩, rfl⟩
    · intro r hr
      rcases List.mem_append.mp hr with hr123 | hr4
      · rcases List.mem_append.mp hr123 with hr12 | hr3
        · rcases List.mem_append.mp hr12 with hr1 | hr2
          · by_cases hc : st.total_errors > 100
            · rw [if_pos hc] at hr1
              exact Or.inl ⟨by simpa using hr1, hc⟩
            · rw [if_neg hc] at hr1
              exact absurd hr1 (List.not_mem_nil r)
          · by_cases hc : st.recent_errors > 10
            · rw [if_pos hc] at hr2
              exact Or.inr (Or.inl ⟨by simpa using hr2, hc⟩)
            · rw [if_neg hc] at hr2
              exact absurd hr2 (List.not_mem_nil r)
        · by_cases hc : st.circuit_breakers_open > 0
          · rw [if_pos hc] at hr3
            exact Or.inr (Or.inr (Or.inl ⟨by simpa using hr3, hc⟩))
          · rw [if_neg hc] at hr3
            exact absurd hr3 (List.not_mem_nil r)
      · obtain ⟨p, hpf, hpr⟩ := List.mem_map.mp hr4
        obtain ⟨hpmem, hp20⟩ := List.mem_filter.mp hpf
        exact Or.inr (Or.inr (Or.inr ⟨p, hpmem, by simpa using hp20, hpr.symm⟩))
  · intro s now rep h
    cases hg : generate_error_recommendations (get_error_statistics s now) with
    | error e =>
        simp only [create_error_report, hg] at h
        exact absurd h (by simp)
    | ok recs =>
        simp only [create_error_report, hg] at h
        rw [← Except.ok.inj h]

/-- C8 witness: statistics on a one-record engine carry every field; the
recommendation rules fire on a statistics dict crossing all four thresholds;
and the report on the one-record engine carries exactly the recommendations
computed from its statistics. -/
theorem c8_statistics_and_recommendations_witness :
    one_error_state.error_history ≠ [] ∧
    stats_has_all_fields (get_error_statistics one_error_state 0) = true ∧
    (∃ recs,
      generate_error_recommendations (StatsResult.fullStats trigger_stats) =
        Except.ok recs ∧
      "High error count detected - consider system stability review" ∈ recs ∧
      "Recent error spike detected - investigate recent changes" ∈ recs ∧
      (toString trigger_stats.circuit_breakers_open ++
        " circuit breakers are open - manual intervention may be required") ∈ recs ∧
      ("High frequency of " ++ "E" ++ " errors - consider preventive measures") ∈ recs) ∧
    create_error_report one_error_state 0 = Except.ok one_error_report ∧
    generate_error_recommendations (get_error_statistics one_error_state 0) =
      Except.ok one_error_report.recommendations := by
  refine ⟨by decide, ?_, ?_, rfl,
    c8_statistics_and_recommendations.2.2 one_error_state 0 one_error_report rfl⟩
  · obtain ⟨st, hst, -⟩ :=
      c8_statistics_and_recommendations.1 one_error_state 0 (by decide)
    rw [hst]
    rfl
  · obtain ⟨recs, hrecs, h1, h2, h3, h4, -⟩ :=
      c8_statistics_and_recommendations.2.1 trigger_stats
    exact ⟨recs, hrecs, h1 (by decide), h2 (by decide), h3 (by decide),
      h4 ("E", 21) (by decide) (by decide)⟩

end ErrorHandlingSystem
